import Mathlib

/-! Verification of the Rinnai heater controller core
    (`src/platformAccessory.ts`: the `rinnaiApi` / `utils` modules).

    Temperatures are modelled as rationals (JS numbers restricted to the
    real — non-NaN — inputs the claims quantify over); device telemetry
    lines are modelled as Lean strings; the module-level mutable cache,
    the HTTP transport and the request log are modelled by explicit state
    passing through a world record `W`. -/

deriving instance DecidableEq for Except

namespace Rinnai

/-- JS truthiness test on an optional number: `undefined`/`null` and `0`
    are falsy, every other number is truthy. -/
def jsFalsyQ : Option ℚ → Bool
  | none => true
  | some x => x == 0

/-- `const AVAILABLE_TEMPERATURES = [35, ..., 45]` (utils). -/
def AVAILABLE_TEMPERATURES : List ℚ :=
  [35, 36, 37, 38, 39, 40, 41, 42, 43, 44, 45]

/-- `const RINNAI_STATE_TEMPERATURES = [35, ..., 45]` (utils). -/
def RINNAI_STATE_TEMPERATURES : List ℚ :=
  [35, 36, 37, 38, 39, 40, 41, 42, 43, 44, 45]

/-- The `AVAILABLE_TEMPERATURES.find((_, index) => AVAILABLE_TEMPERATURES[index + 1] > temperature)`
    scan inside `parseTargetTemperatureToRange`: return the first element whose
    successor in the list strictly exceeds `t`; for the last element the
    successor is `undefined` and `undefined > t` is false, so it never matches. -/
def findNextAvailable : List ℚ → ℚ → Option ℚ
  | [], _ => none
  | [_], _ => none
  | x :: y :: rest, t => if y > t then some x else findNextAvailable (y :: rest) t

/-- `parseTargetTemperatureToRange` (utils): snap a requested temperature to the
    supported table, with the source's exact truthiness checks and its
    round-down scan, clamping below/above the table. -/
def parseTargetTemperatureToRange (temperature : ℚ) : Option ℚ :=
  let step1 : Option ℚ :=
    if temperature ∈ AVAILABLE_TEMPERATURES then some temperature else none
  let step2 : Option ℚ :=
    if jsFalsyQ step1 then findNextAvailable AVAILABLE_TEMPERATURES temperature
    else step1
  if jsFalsyQ step2 then
    let lowestTemp := AVAILABLE_TEMPERATURES.headD 0
    let highestTemp := AVAILABLE_TEMPERATURES.getLast?.getD 0
    if temperature > highestTemp then some highestTemp
    else if temperature < lowestTemp then some lowestTemp
    else step2
  else step2

/-- `parseRinnaiTemperature` (utils): `RINNAI_STATE_TEMPERATURES[rinnaiTemp - 3]`,
    where an out-of-bounds (or negative) JS array access yields `undefined`. -/
def parseRinnaiTemperature (rinnaiTemp : Int) : Option ℚ :=
  let index := rinnaiTemp - 3
  if index < 0 then none
  else RINNAI_STATE_TEMPERATURES.get? index.toNat

/-- Splitter on `','` for character lists, modelling JS `String.prototype.split(',')`. -/
def splitCommaAux : List Char → List (List Char)
  | [] => [[]]
  | c :: rest =>
      let r := splitCommaAux rest
      if c = ',' then [] :: r
      else (c :: r.headD []) :: r.tail

/-- JS `s.split(',')`: the comma-separated fields of `s` (always at least one field). -/
def splitComma (s : String) : List String :=
  (splitCommaAux s.data).map (fun l => String.mk l)

/-- Longest leading run of decimal digits as a number; `none` when there is no
    leading digit (JS `parseInt` yields `NaN` there). -/
def digitsToNat (cs : List Char) : Option Nat :=
  let ds := cs.takeWhile Char.isDigit
  if ds.isEmpty then none
  else some (ds.foldl (fun a c => a * 10 + (c.toNat - 48)) 0)

/-- JS `parseInt(s, 10)`: skip leading spaces, optional sign, longest digit
    prefix; `none` models `NaN`. -/
def jsParseInt (s : String) : Option Int :=
  let cs := s.data.dropWhile (fun c => c = ' ')
  match cs with
  | '-' :: rest => (digitsToNat rest).map (fun n => -(n : Int))
  | '+' :: rest => (digitsToNat rest).map (fun n => (n : Int))
  | _ => (digitsToNat cs).map (fun n => (n : Int))

/-- `RinnaiState` (rinnaiApi): the decoded telemetry snapshot. -/
structure RinnaiState where
  targetTemperature : Option ℚ
  isHeating : Bool
  isPoweredOn : Bool
deriving DecidableEq, Repr

/-- `parseStateParams` (rinnaiApi): decode one full-state CSV line. Field 7 is
    parsed with `parseInt` (a missing field parses as `NaN`, and indexing the
    temperature table at `NaN - 3` yields `undefined`, modelled as `none`);
    field 2 is compared to `'1'`; field 0 to `'11'`. The function is total:
    no malformed input makes it throw. -/
def parseStateParams (stringifiedParams : String) : RinnaiState :=
  let params := splitComma stringifiedParams
  let temperature : Option Int := (params.get? 7).bind jsParseInt
  let targetTemperature : Option ℚ :=
    match temperature with
    | none => none
    | some t => parseRinnaiTemperature t
  let isHeating : Bool := params.get? 2 == some "1"
  let isPoweredOn : Bool := params.get? 0 != some "11"
  { targetTemperature := targetTemperature
    isHeating := isHeating
    isPoweredOn := isPoweredOn }

/-- The error classification of the spec. In the source all of these are `Error`
    values distinguished by their message; the message thrown by the retry
    handler of `setTargetTemperature` is 'Max number of retries reached.'
    (`maxRetries`); the two guard throws inside its `try` block are
    `invalidTemperature` and `stateUnavailable`; axios failures are
    `transport`. -/
inductive RinnaiError where
  | transport
  | invalidTemperature
  | stateUnavailable
  | maxRetries
deriving DecidableEq, Repr

/-- An environment (transport model): from an environment state and an endpoint
    name, the response (`Except.error` = transport failure) and the next
    environment state. -/
def Api (E : Type) : Type := E → String → Except Unit String × E

/-- The world threaded through every operation: the module-level `lastState`
    cache, the transport environment, and the log of issued requests
    (endpoint names, in order). -/
structure W (E : Type) where
  cache : Option RinnaiState
  env : E
  trace : List String
deriving DecidableEq, Repr

/-- `rinnaiApi(endpoint)` (the axios instance): one request against the
    environment, recorded in the trace. -/
def rinnaiApi {E : Type} (api : Api E) (endpoint : String) (w : W E) :
    Except Unit String × W E :=
  let (r, e') := api w.env endpoint
  (r, { w with env := e', trace := w.trace ++ [endpoint] })

/-- `getState(ignoreCache = false)` (rinnaiApi): return the cached state when
    present and not ignored; otherwise issue one `tela_` request, decode it,
    store it in the cache and return it. -/
def getState {E : Type} (api : Api E) (ignoreCache : Bool) (w : W E) :
    Except RinnaiError RinnaiState × W E :=
  match w.cache, ignoreCache with
  | some s, false => (Except.ok s, w)
  | _, _ =>
    match rinnaiApi api "tela_" w with
    | (Except.error _, w') => (Except.error RinnaiError.transport, w')
    | (Except.ok data, w') =>
      let s := parseStateParams data
      (Except.ok s, { w' with cache := some s })

/-- Outcome of one execution of the `try` block of `setTargetTemperature`:
    either a `return` (with the returned value, the module-level `lastState`,
    possibly `null`), or a tail call `setTargetTemperature(target, 0, newLast)`. -/
inductive StepOutcome where
  | done : Option RinnaiState → StepOutcome
  | next : Option ℚ → StepOutcome
deriving DecidableEq, Repr

/-- One execution of the `try` block of `setTargetTemperature` (rinnaiApi),
    faithful to the source line by line: map the request through
    `parseTargetTemperatureToRange` (a falsy result throws); resolve the
    current target from `lastTargetTemp` when truthy, else from a forced
    `getState(true)`; a falsy current target throws (`stateUnavailable`);
    equality with the mapped request returns the cache; otherwise one
    `dec`/`inc` request (by `currentTargetTemp > targetTemperatureInRange`),
    whose decoded response updates the cache; equality with the newly
    reported target returns it, else the block tail-recurses with retries 0.
    Errors thrown anywhere in the block are the `Except.error` results. -/
def tryBody {E : Type} (api : Api E) (target : ℚ) (lastTargetTemp : Option ℚ)
    (w : W E) : Except RinnaiError StepOutcome × W E :=
  let tirOpt := parseTargetTemperatureToRange target
  if jsFalsyQ tirOpt then (Except.error RinnaiError.invalidTemperature, w)
  else
    match tirOpt with
    | none => (Except.error RinnaiError.invalidTemperature, w)
    | some tir =>
      let fetched : Except RinnaiError (Option ℚ) × W E :=
        if jsFalsyQ lastTargetTemp then
          match getState api true w with
          | (Except.error e, w') => (Except.error e, w')
          | (Except.ok st, w') => (Except.ok st.targetTemperature, w')
        else (Except.ok lastTargetTemp, w)
      match fetched with
      | (Except.error e, w') => (Except.error e, w')
      | (Except.ok currentTargetTemp, w') =>
        if jsFalsyQ currentTargetTemp then
          (Except.error RinnaiError.stateUnavailable, w')
        else
          match currentTargetTemp with
          | none => (Except.error RinnaiError.stateUnavailable, w')
          | some cur =>
            if tir == cur then (Except.ok (StepOutcome.done w'.cache), w')
            else
              let operation := if cur > tir then "dec" else "inc"
              match rinnaiApi api operation w' with
              | (Except.error _, w'') => (Except.error RinnaiError.transport, w'')
              | (Except.ok data, w'') =>
                let parsedParams := parseStateParams data
                let w3 := { w'' with cache := some parsedParams }
                if (some tir : Option ℚ) == parsedParams.targetTemperature then
                  (Except.ok (StepOutcome.done w3.cache), w3)
                else
                  (Except.ok (StepOutcome.next parsedParams.targetTemperature), w3)

/-- `setTargetTemperature(target, retries, lastTargetTemp)` (rinnaiApi),
    with explicit recursion fuel (`none` = fuel exhausted; the source
    recursion has no intrinsic bound). A `try` block that throws is retried
    with `retries + 1` and the same `lastTargetTemp` while `retries < 5`,
    else the call fails with `maxRetries`; a successful step tail-calls with
    retries reset to 0 and the newly reported target. The recursive calls in
    the source are `return setTargetTemperature(...)` without `await`, so a
    failure of the inner call is not caught by the outer `catch`. -/
def setTargetTemperatureAux {E : Type} (api : Api E) :
    Nat → ℚ → Nat → Option ℚ → W E →
    Option (Except RinnaiError (Option RinnaiState) × W E)
  | 0, _, _, _, _ => none
  | Nat.succ fuel, target, retries, lastTargetTemp, w =>
    match tryBody api target lastTargetTemp w with
    | (Except.ok (StepOutcome.done result), w') => some (Except.ok result, w')
    | (Except.ok (StepOutcome.next newLast), w') =>
      setTargetTemperatureAux api fuel target 0 newLast w'
    | (Except.error _, w') =>
      if retries < 5 then
        setTargetTemperatureAux api fuel target (retries + 1) lastTargetTemp w'
      else some (Except.error RinnaiError.maxRetries, w')

/-- `setTargetTemperature(target)` as called externally (retries 0, no
    carried last target). -/
def setTargetTemperature {E : Type} (api : Api E) (fuel : Nat) (target : ℚ)
    (w : W E) : Option (Except RinnaiError (Option RinnaiState) × W E) :=
  setTargetTemperatureAux api fuel target 0 none w

/-- Result of `setPowerState` (rinnaiApi): the source returns the literal
    `true` when the cached power state already matches, and the freshly
    decoded state after a toggle. -/
inductive SetPowerResult where
  | already : SetPowerResult
  | toggledTo : RinnaiState → SetPowerResult
deriving DecidableEq, Repr

/-- `setPowerState(turnOn)` (rinnaiApi): one cached (non-forced) state read;
    no-op when the power state already matches, otherwise a single `/lig`
    request whose decoded response becomes the new cache. No retry. -/
def setPowerState {E : Type} (api : Api E) (turnOn : Bool) (w : W E) :
    Except RinnaiError SetPowerResult × W E :=
  match getState api false w with
  | (Except.error e, w') => (Except.error e, w')
  | (Except.ok st, w') =>
    if st.isPoweredOn == turnOn then (Except.ok SetPowerResult.already, w')
    else
      match rinnaiApi api "/lig" w' with
      | (Except.error _, w'') => (Except.error RinnaiError.transport, w'')
      | (Except.ok data, w'') =>
        let s := parseStateParams data
        (Except.ok (SetPowerResult.toggledTo s), { w'' with cache := some s })

/-- A scripted transport: a fixed queue of responses consumed one per request
    (regardless of endpoint); an exhausted queue behaves as a transport
    failure. -/
def scriptApi : Api (List (Except Unit String)) := fun env _ =>
  match env with
  | [] => (Except.error (), [])
  | r :: rest => (r, rest)

/-- The full-state line an ideal device at internal temperature index `k`
    (Celsius `35 + k`) reports: powered on, heating, raw target index `k + 3`. -/
def idealLine (k : Nat) : String :=
  "10,x,1,x,x,x,x," ++
    (["3", "4", "5", "6", "7", "8", "9", "10", "11", "12", "13"].getD k "99")
    ++ ",x"

/-- The ideal device of claim C1: every request succeeds, `inc`/`dec` moves
    the reported target temperature by exactly one supported unit in the
    commanded direction, and every response reports the resulting state. -/
def idealApi : Api Nat := fun k endpoint =>
  if endpoint == "inc" then (Except.ok (idealLine (k + 1)), k + 1)
  else if endpoint == "dec" then (Except.ok (idealLine (k - 1)), k - 1)
  else (Except.ok (idealLine k), k)

/-- Flatten a `setTargetTemperature` run result into decidable-equality
    observable parts: the returned value, the final cache, environment and
    request trace. -/
def runObs {E : Type} :
    Option (Except RinnaiError (Option RinnaiState) × W E) →
    Option (Except RinnaiError (Option RinnaiState) ×
            Option RinnaiState × E × List String)
  | none => none
  | some (r, w) => some (r, w.cache, w.env, w.trace)

/-- Claim C1's ideal convergence run, observed: starting with an empty cache
    at device index `k` and requesting `35 + j`, the run force-refreshes once
    (`tela_`), then issues exactly `|k - j|` step commands — `dec` when the
    current target exceeds the desired value, `inc` otherwise — at most 10 of
    them, and returns converged: the returned state's `targetTemperature` is
    the mapped desired value `35 + j`. -/
def idealConverges (k j : Nat) : Prop :=
  max k j - min k j ≤ 10 ∧
  runObs (setTargetTemperature idealApi 30 ((35 + j : ℕ) : ℚ) ⟨none, k, []⟩) =
    some (Except.ok (some ⟨some ((35 + j : ℕ) : ℚ), true, true⟩),
          some ⟨some ((35 + j : ℕ) : ℚ), true, true⟩,
          j,
          "tela_" :: List.replicate (max k j - min k j)
            (if j < k then "dec" else "inc"))

instance (k j : Nat) : Decidable (idealConverges k j) := by
  unfold idealConverges
  infer_instance

/-- Decidable equality for the observation tuples of scripted-transport runs
    (spelled out because automatic synthesis stops at this nesting depth). -/
instance scriptObsDecEq : DecidableEq (Except RinnaiError (Option RinnaiState) ×
    Option RinnaiState × List (Except Unit String) × List String) :=
  @instDecidableEqProd _ _ inferInstance inferInstance

/-! Helper lemmas about the temperature scale mapper. -/

theorem mem_table_iff (t : ℚ) :
    t ∈ AVAILABLE_TEMPERATURES ↔
      t = 35 ∨ t = 36 ∨ t = 37 ∨ t = 38 ∨ t = 39 ∨ t = 40 ∨ t = 41 ∨
      t = 42 ∨ t = 43 ∨ t = 44 ∨ t = 45 := by
  simp [AVAILABLE_TEMPERATURES]

theorem pttr_via_find (t v : ℚ) (hm : ¬ t ∈ AVAILABLE_TEMPERATURES)
    (hv : (v == 0) = false)
    (hF : findNextAvailable AVAILABLE_TEMPERATURES t = some v) :
    parseTargetTemperatureToRange t = some v := by
  unfold parseTargetTemperatureToRange
  rw [if_neg hm, hF]
  simp only [jsFalsyQ, hv, Bool.false_eq_true, if_true, if_false]

theorem notMem_table_out (t : ℚ) (h : t < 35 ∨ t > 45) : ¬ t ∈ AVAILABLE_TEMPERATURES := by
  rw [mem_table_iff]
  push_neg
  refine ⟨?_, ?_, ?_, ?_, ?_, ?_, ?_, ?_, ?_, ?_, ?_⟩ <;>
    (rintro rfl; rcases h with h | h <;> linarith)

theorem pttr_below (t : ℚ) (h : t < 35) : parseTargetTemperatureToRange t = some 35 := by
  refine pttr_via_find _ _ (notMem_table_out t (Or.inl h)) (by norm_num) ?_
  rw [AVAILABLE_TEMPERATURES, findNextAvailable, if_pos (show (36:ℚ) > t by linarith)]

theorem find_none_of_above (t : ℚ) (h : t > 45) :
    findNextAvailable AVAILABLE_TEMPERATURES t = none := by
  rw [AVAILABLE_TEMPERATURES,
    findNextAvailable, if_neg (show ¬ (36:ℚ) > t by linarith),
    findNextAvailable, if_neg (show ¬ (37:ℚ) > t by linarith),
    findNextAvailable, if_neg (show ¬ (38:ℚ) > t by linarith),
    findNextAvailable, if_neg (show ¬ (39:ℚ) > t by linarith),
    findNextAvailable, if_neg (show ¬ (40:ℚ) > t by linarith),
    findNextAvailable, if_neg (show ¬ (41:ℚ) > t by linarith),
    findNextAvailable, if_neg (show ¬ (42:ℚ) > t by linarith),
    findNextAvailable, if_neg (show ¬ (43:ℚ) > t by linarith),
    findNextAvailable, if_neg (show ¬ (44:ℚ) > t by linarith),
    findNextAvailable, if_neg (show ¬ (45:ℚ) > t by linarith),
    findNextAvailable]

theorem pttr_above (t : ℚ) (h : t > 45) : parseTargetTemperatureToRange t = some 45 := by
  have hm := notMem_table_out t (Or.inr h)
  unfold parseTargetTemperatureToRange
  rw [if_neg hm, find_none_of_above t h]
  simp only [jsFalsyQ, if_true, if_false]
  rw [if_pos (show t > AVAILABLE_TEMPERATURES.getLast?.getD 0 from h)]
  rfl

theorem notMem_table_between (n : ℕ) (hn : n < 10) (t : ℚ)
    (h1 : 35 + (n : ℚ) < t) (h2 : t < 36 + (n : ℚ)) :
    ¬ t ∈ AVAILABLE_TEMPERATURES := by
  rw [mem_table_iff]
  push_neg
  refine ⟨?_, ?_, ?_, ?_, ?_, ?_, ?_, ?_, ?_, ?_, ?_⟩ <;>
    (rintro rfl; interval_cases n <;> norm_num at h1 h2)

theorem pttr_between (n : ℕ) (hn : n < 10) (t : ℚ)
    (h1 : 35 + (n : ℚ) < t) (h2 : t < 36 + (n : ℚ)) :
    parseTargetTemperatureToRange t = some (35 + (n : ℚ)) := by
  refine pttr_via_find _ _ (notMem_table_between n hn t h1 h2) ?_ ?_
  · have hq0 : (0:ℚ) ≤ (n : ℚ) := Nat.cast_nonneg n
    rw [beq_eq_false_iff_ne]
    intro hz
    linarith [hz]
  · interval_cases n
    · rw [AVAILABLE_TEMPERATURES,
        findNextAvailable, if_pos (show (36:ℚ) > t by push_cast at h2; linarith)]
      norm_num
    · rw [AVAILABLE_TEMPERATURES,
        findNextAvailable, if_neg (show ¬ (36:ℚ) > t by push_cast at h1; linarith),
        findNextAvailable, if_pos (show (37:ℚ) > t by push_cast at h2; linarith)]
      norm_num
    · rw [AVAILABLE_TEMPERATURES,
        findNextAvailable, if_neg (show ¬ (36:ℚ) > t by push_cast at h1; linarith),
        findNextAvailable, if_neg (show ¬ (37:ℚ) > t by push_cast at h1; linarith),
        findNextAvailable, if_pos (show (38:ℚ) > t by push_cast at h2; linarith)]
      norm_num
    · rw [AVAILABLE_TEMPERATURES,
        findNextAvailable, if_neg (show ¬ (36:ℚ) > t by push_cast at h1; linarith),
        findNextAvailable, if_neg (show ¬ (37:ℚ) > t by push_cast at h1; linarith),
        findNextAvailable, if_neg (show ¬ (38:ℚ) > t by push_cast at h1; linarith),
        findNextAvailable, if_pos (show (39:ℚ) > t by push_cast at h2; linarith)]
      norm_num
    · rw [AVAILABLE_TEMPERATURES,
        findNextAvailable, if_neg (show ¬ (36:ℚ) > t by push_cast at h1; linarith),
        findNextAvailable, if_neg (show ¬ (37:ℚ) > t by push_cast at h1; linarith),
        findNextAvailable, if_neg (show ¬ (38:ℚ) > t by push_cast at h1; linarith),
        findNextAvailable, if_neg (show ¬ (39:ℚ) > t by push_cast at h1; linarith),
        findNextAvailable, if_pos (show (40:ℚ) > t by push_cast at h2; linarith)]
      norm_num
    · rw [AVAILABLE_TEMPERATURES,
        findNextAvailable, if_neg (show ¬ (36:ℚ) > t by push_cast at h1; linarith),
        findNextAvailable, if_neg (show ¬ (37:ℚ) > t by push_cast at h1; linarith),
        findNextAvailable, if_neg (show ¬ (38:ℚ) > t by push_cast at h1; linarith),
        findNextAvailable, if_neg (show ¬ (39:ℚ) > t by push_cast at h1; linarith),
        findNextAvailable, if_neg (show ¬ (40:ℚ) > t by push_cast at h1; linarith),
        findNextAvailable, if_pos (show (41:ℚ) > t by push_cast at h2; linarith)]
      norm_num
    · rw [AVAILABLE_TEMPERATURES,
        findNextAvailable, if_neg (show ¬ (36:ℚ) > t by push_cast at h1; linarith),
        findNextAvailable, if_neg (show ¬ (37:ℚ) > t by push_cast at h1; linarith),
        findNextAvailable, if_neg (show ¬ (38:ℚ) > t by push_cast at h1; linarith),
        findNextAvailable, if_neg (show ¬ (39:ℚ) > t by push_cast at h1; linarith),
        findNextAvailable, if_neg (show ¬ (40:ℚ) > t by push_cast at h1; linarith),
        findNextAvailable, if_neg (show ¬ (41:ℚ) > t by push_cast at h1; linarith),
        findNextAvailable, if_pos (show (42:ℚ) > t by push_cast at h2; linarith)]
      norm_num
    · rw [AVAILABLE_TEMPERATURES,
        findNextAvailable, if_neg (show ¬ (36:ℚ) > t by push_cast at h1; linarith),
        findNextAvailable, if_neg (show ¬ (37:ℚ) > t by push_cast at h1; linarith),
        findNextAvailable, if_neg (show ¬ (38:ℚ) > t by push_cast at h1; linarith),
        findNextAvailable, if_neg (show ¬ (39:ℚ) > t by push_cast at h1; linarith),
        findNextAvailable, if_neg (show ¬ (40:ℚ) > t by push_cast at h1; linarith),
        findNextAvailable, if_neg (show ¬ (41:ℚ) > t by push_cast at h1; linarith),
        findNextAvailable, if_neg (show ¬ (42:ℚ) > t by push_cast at h1; linarith),
        findNextAvailable, if_pos (show (43:ℚ) > t by push_cast at h2; linarith)]
      norm_num
    · rw [AVAILABLE_TEMPERATURES,
        findNextAvailable, if_neg (show ¬ (36:ℚ) > t by push_cast at h1; linarith),
        findNextAvailable, if_neg (show ¬ (37:ℚ) > t by push_cast at h1; linarith),
        findNextAvailable, if_neg (show ¬ (38:ℚ) > t by push_cast at h1; linarith),
        findNextAvailable, if_neg (show ¬ (39:ℚ) > t by push_cast at h1; linarith),
        findNextAvailable, if_neg (show ¬ (40:ℚ) > t by push_cast at h1; linarith),
        findNextAvailable, if_neg (show ¬ (41:ℚ) > t by push_cast at h1; linarith),
        findNextAvailable, if_neg (show ¬ (42:ℚ) > t by push_cast at h1; linarith),
        findNextAvailable, if_neg (show ¬ (43:ℚ) > t by push_cast at h1; linarith),
        findNextAvailable, if_pos (show (44:ℚ) > t by push_cast at h2; linarith)]
      norm_num
    · rw [AVAILABLE_TEMPERATURES,
        findNextAvailable, if_neg (show ¬ (36:ℚ) > t by push_cast at h1; linarith),
        findNextAvailable, if_neg (show ¬ (37:ℚ) > t by push_cast at h1; linarith),
        findNextAvailable, if_neg (show ¬ (38:ℚ) > t by push_cast at h1; linarith),
        findNextAvailable, if_neg (show ¬ (39:ℚ) > t by push_cast at h1; linarith),
        findNextAvailable, if_neg (show ¬ (40:ℚ) > t by push_cast at h1; linarith),
        findNextAvailable, if_neg (show ¬ (41:ℚ) > t by push_cast at h1; linarith),
        findNextAvailable, if_neg (show ¬ (42:ℚ) > t by push_cast at h1; linarith),
        findNextAvailable, if_neg (show ¬ (43:ℚ) > t by push_cast at h1; linarith),
        findNextAvailable, if_neg (show ¬ (44:ℚ) > t by push_cast at h1; linarith),
        findNextAvailable, if_pos (show (45:ℚ) > t by push_cast at h2; linarith)]
      norm_num

theorem pttr_of_mem (t : ℚ) (h : t ∈ AVAILABLE_TEMPERATURES) :
    parseTargetTemperatureToRange t = some t := by
  rw [mem_table_iff] at h
  rcases h with rfl | rfl | rfl | rfl | rfl | rfl | rfl | rfl | rfl | rfl | rfl <;> decide


/-! Claim theorems. -/

/-- C1: under a device model in which every inc/dec step command succeeds and
    moves the reported target temperature by exactly one supported unit in the
    commanded direction, `setTargetTemperature` issues `dec` when the current
    target exceeds the desired value and `inc` otherwise, and terminates
    converged (the returned state's `targetTemperature` equals the mapped
    desired value) within at most 10 successful steps; in particular (see the
    witness at `k = 2`, `j = 5`) requesting a value 3 steps above the current
    target issues exactly 3 successive `inc` calls. -/
theorem C1_ideal_convergence :
    ∀ k : Nat, k < 11 → ∀ j : Nat, j < 11 → idealConverges k j := by
  decide

/-- Witness for C1: starting 3 steps below the request (device index 2,
    request 40 = 35 + 5) the run issues exactly 3 successive `inc` calls and
    converges. -/
theorem C1_ideal_convergence_witness :
    (2 : Nat) < 11 ∧ (5 : Nat) < 11 ∧ idealConverges 2 5 :=
  ⟨by decide, by decide, C1_ideal_convergence 2 (by decide) 5 (by decide)⟩

/-- C2: in `setTargetTemperature` a successful step recurses with the retry
    counter reset to zero (first conjunct) while a failure recurses with the
    counter incremented and the same carried `lastTargetTemp` (second
    conjunct); 6 consecutive failures at the same step surface
    `maxRetries` (third conjunct: scripted run with 6 transport failures),
    whereas 4 consecutive failures followed by a success raise no error — the
    fourth conjunct's scripted run even survives 5 further failures after the
    success, observing the reset. -/
theorem C2_retry_reset_and_bound :
    (∀ (E : Type) (api : Api E) (fuel : Nat) (target : ℚ) (retries : Nat)
       (lastTargetTemp newLast : Option ℚ) (w w2 : W E),
       tryBody api target lastTargetTemp w =
         (Except.ok (StepOutcome.next newLast), w2) →
       setTargetTemperatureAux api (fuel + 1) target retries lastTargetTemp w =
         setTargetTemperatureAux api fuel target 0 newLast w2) ∧
    (∀ (E : Type) (api : Api E) (fuel : Nat) (target : ℚ) (retries : Nat)
       (lastTargetTemp : Option ℚ) (w w2 : W E) (er : RinnaiError),
       retries < 5 →
       tryBody api target lastTargetTemp w = (Except.error er, w2) →
       setTargetTemperatureAux api (fuel + 1) target retries lastTargetTemp w =
         setTargetTemperatureAux api fuel target (retries + 1) lastTargetTemp w2) ∧
    runObs (setTargetTemperatureAux scriptApi 20 35 0 (some 36)
      ⟨none, List.replicate 6 (Except.error ()), []⟩) =
      some (Except.error RinnaiError.maxRetries, none, [],
        List.replicate 6 "dec") ∧
    runObs (setTargetTemperatureAux scriptApi 20 35 0 (some 37)
      ⟨none, List.replicate 4 (Except.error ()) ++ [Except.ok "10,x,1,x,x,x,x,4,x"]
        ++ List.replicate 5 (Except.error ()) ++ [Except.ok "10,x,1,x,x,x,x,3,x"],
        []⟩) =
      some (Except.ok (some ⟨some 35, true, true⟩),
        some ⟨some 35, true, true⟩, [], List.replicate 11 "dec") := by
  refine ⟨?_, ?_, by decide, by decide⟩
  · intro E api fuel target retries lastTargetTemp newLast w w2 htb
    rw [setTargetTemperatureAux, htb]
  · intro E api fuel target retries lastTargetTemp w w2 er hr htb
    rw [setTargetTemperatureAux, htb]
    show (if retries < 5
        then setTargetTemperatureAux api fuel target (retries + 1) lastTargetTemp w2
        else some (Except.error RinnaiError.maxRetries, w2)) =
      setTargetTemperatureAux api fuel target (retries + 1) lastTargetTemp w2
    exact if_pos hr

/-- Witness for C2: one concrete successful step (response reporting 36 while
    heading for 35) makes the call continue with retries reset to 0 and the
    newly reported temperature carried. -/
theorem C2_retry_reset_and_bound_witness :
    tryBody scriptApi 35 (some 37) ⟨none, [Except.ok "10,x,1,x,x,x,x,4,x"], []⟩ =
      (Except.ok (StepOutcome.next (some 36)),
       ⟨some ⟨some 36, true, true⟩, [], ["dec"]⟩) ∧
    setTargetTemperatureAux scriptApi 4 35 0 (some 37)
        ⟨none, [Except.ok "10,x,1,x,x,x,x,4,x"], []⟩ =
      setTargetTemperatureAux scriptApi 3 35 0 (some 36)
        ⟨some ⟨some 36, true, true⟩, [], ["dec"]⟩ :=
  ⟨by decide,
   C2_retry_reset_and_bound.1 (List (Except Unit String)) scriptApi 3 35 0
     (some 37) (some 36) ⟨none, [Except.ok "10,x,1,x,x,x,x,4,x"], []⟩
     ⟨some ⟨some 36, true, true⟩, [], ["dec"]⟩ (by decide)⟩

/-- C3 counterexample: with every forced refresh reporting a state whose
    target temperature is null (raw index 99 is outside the table), the claim
    says `setTargetTemperature` surfaces a StateUnavailableError, but the run
    surfaces `maxRetries` — the guard throw is swallowed by the function's own
    catch-and-retry handler. -/
theorem C3_claim_counterexample :
    runObs (setTargetTemperature scriptApi 10 40
      ⟨none, List.replicate 6 (Except.ok "10,x,1,x,x,x,x,99,x"), []⟩) =
      some (Except.error RinnaiError.maxRetries,
        some ⟨none, true, true⟩, [], List.replicate 6 "tela_") ∧
    RinnaiError.maxRetries ≠ RinnaiError.stateUnavailable ∧
    (parseStateParams "10,x,1,x,x,x,x,99,x").targetTemperature = none := by
  refine ⟨by decide, by decide, by decide⟩

/-- C3 amended: every error `setTargetTemperature` surfaces to its caller is
    `maxRetries`; the StateUnavailableError and InvalidTemperatureError guard
    throws are caught by the retry handler and never surface as terminal
    errors. -/
theorem C3_only_max_retries_surfaces {E : Type} (api : Api E) (fuel : Nat)
    (target : ℚ) (retries : Nat) (lastTargetTemp : Option ℚ) (w : W E)
    (e : RinnaiError) (w' : W E)
    (h : setTargetTemperatureAux api fuel target retries lastTargetTemp w =
      some (Except.error e, w')) : e = RinnaiError.maxRetries := by
  induction fuel generalizing retries lastTargetTemp w e w' with
  | zero => simp [setTargetTemperatureAux] at h
  | succ n ih =>
    rw [setTargetTemperatureAux] at h
    rcases htb : tryBody api target lastTargetTemp w with ⟨r, w2⟩
    rw [htb] at h
    match r with
    | Except.ok (StepOutcome.done res) =>
      simp at h
    | Except.ok (StepOutcome.next nl) =>
      exact ih 0 nl w2 e w' h
    | Except.error er =>
      have h2 : (if retries < 5
          then setTargetTemperatureAux api n target (retries + 1) lastTargetTemp w2
          else some (Except.error RinnaiError.maxRetries, w2)) =
          some (Except.error e, w') := h
      by_cases hr : retries < 5
      · rw [if_pos hr] at h2
        exact ih (retries + 1) lastTargetTemp w2 e w' h2
      · rw [if_neg hr] at h2
        simp at h2
        exact h2.1.symm

/-- Witness for the amended C3: the null-target run satisfies the hypothesis
    and its surfaced error is `maxRetries`. -/
theorem C3_only_max_retries_surfaces_witness :
    setTargetTemperatureAux scriptApi 10 40 0 none
      ⟨none, List.replicate 6 (Except.ok "10,x,1,x,x,x,x,99,x"), []⟩ =
      some (Except.error RinnaiError.maxRetries,
        ⟨some ⟨none, true, true⟩, [], List.replicate 6 "tela_"⟩) ∧
    RinnaiError.maxRetries = RinnaiError.maxRetries :=
  ⟨by decide,
   C3_only_max_retries_surfaces scriptApi 10 40 0 none
     ⟨none, List.replicate 6 (Except.ok "10,x,1,x,x,x,x,99,x"), []⟩
     RinnaiError.maxRetries
     ⟨some ⟨none, true, true⟩, [], List.replicate 6 "tela_"⟩ (by decide)⟩

/-- C4: `parseTargetTemperatureToRange` returns the requested value itself on
    the supported values; for a value strictly between two consecutive
    supported values `35 + n` and `36 + n` it returns the lower of the pair
    (round-down bias); every value below 35 maps to 35 and every value above
    45 maps to 45. -/
theorem C4_requested_to_supported (t : ℚ) :
    (t ∈ AVAILABLE_TEMPERATURES → parseTargetTemperatureToRange t = some t) ∧
    (∀ n : ℕ, n < 10 → 35 + (n : ℚ) < t → t < 36 + (n : ℚ) →
      parseTargetTemperatureToRange t = some (35 + (n : ℚ))) ∧
    (t < 35 → parseTargetTemperatureToRange t = some 35) ∧
    (t > 45 → parseTargetTemperatureToRange t = some 45) :=
  ⟨pttr_of_mem t, fun n hn h1 h2 => pttr_between n hn t h1 h2,
   pttr_below t, pttr_above t⟩

/-- Witness for C4: 39.5 lies strictly between 39 and 40 and maps to 39. -/
theorem C4_requested_to_supported_witness :
    35 + ((4 : ℕ) : ℚ) < 79 / 2 ∧ (79 / 2 : ℚ) < 36 + ((4 : ℕ) : ℚ) ∧
    parseTargetTemperatureToRange (79 / 2) = some (35 + ((4 : ℕ) : ℚ)) :=
  ⟨by norm_num, by norm_num,
   (C4_requested_to_supported (79 / 2)).2.1 4 (by norm_num) (by norm_num)
     (by norm_num)⟩

/-- C5: `parseRinnaiTemperature` maps every raw index in `[3, 13]` to the
    Celsius value `35 + (rawIndex - 3)` and every raw index outside `[3, 13]`
    to null. -/
theorem C5_device_index_to_celsius (i : Int) :
    (3 ≤ i → i ≤ 13 →
      parseRinnaiTemperature i = some (((35 + (i - 3) : ℤ) : ℚ))) ∧
    (i < 3 ∨ 13 < i → parseRinnaiTemperature i = none) := by
  constructor
  · intro h1 h2
    interval_cases i <;> decide
  · intro h
    simp only [parseRinnaiTemperature]
    rcases h with h | h
    · rw [if_pos (by omega : i - 3 < 0)]
    · rw [if_neg (by omega : ¬ i - 3 < 0)]
      apply List.get?_eq_none.mpr
      have : RINNAI_STATE_TEMPERATURES.length = 11 := rfl
      omega

/-- Witness for C5: raw index 5 maps to 37 °C. -/
theorem C5_device_index_to_celsius_witness :
    (3 : ℤ) ≤ 5 ∧ (5 : ℤ) ≤ 13 ∧
    parseRinnaiTemperature 5 = some (((35 + ((5 : ℤ) - 3) : ℤ) : ℚ)) :=
  ⟨by decide, by decide, (C5_device_index_to_celsius 5).1 (by decide) (by decide)⟩

/-- C6: for every full-state line with at least 8 fields the decoder returns
    `isPoweredOn = (field 0 ≠ "11")`, `isHeating = (field 2 = "1")` and
    `targetTemperature = parseRinnaiTemperature (parseInt (field 7))`; the
    line `"10,x,1,x,x,x,x,6,x"` decodes to powered-on, heating, target
    `parseRinnaiTemperature 6`; and any line whose field 0 is `"11"` decodes
    to `isPoweredOn = false` regardless of the other fields. -/
theorem C6_decode_full_state :
    (∀ s f0 f2 f7 : String, (splitComma s).get? 0 = some f0 →
      (splitComma s).get? 2 = some f2 → (splitComma s).get? 7 = some f7 →
      parseStateParams s =
        { targetTemperature := (jsParseInt f7).bind parseRinnaiTemperature
          isHeating := f2 == "1"
          isPoweredOn := f0 != "11" }) ∧
    parseStateParams "10,x,1,x,x,x,x,6,x" =
      { targetTemperature := parseRinnaiTemperature 6
        isHeating := true
        isPoweredOn := true } ∧
    (∀ s : String, (splitComma s).get? 0 = some "11" →
      (parseStateParams s).isPoweredOn = false) := by
  refine ⟨?_, by decide, ?_⟩
  · intro s f0 f2 f7 h0 h2 h7
    simp only [parseStateParams]
    rw [h0, h2, h7]
    cases hj : jsParseInt f7 <;> simp [Option.bind, hj] <;> rfl
  · intro s h0
    simp only [parseStateParams]
    rw [h0]
    simp

/-- Witness for C6: the example line has fields "10", "1" and "6" at
    positions 0, 2 and 7. -/
theorem C6_decode_full_state_witness :
    (splitComma "10,x,1,x,x,x,x,6,x").get? 0 = some "10" ∧
    (splitComma "10,x,1,x,x,x,x,6,x").get? 2 = some "1" ∧
    (splitComma "10,x,1,x,x,x,x,6,x").get? 7 = some "6" ∧
    parseStateParams "10,x,1,x,x,x,x,6,x" =
      { targetTemperature := (jsParseInt "6").bind parseRinnaiTemperature
        isHeating := ("1" == "1")
        isPoweredOn := ("10" != "11") } :=
  ⟨by decide, by decide, by decide,
   C6_decode_full_state.1 "10,x,1,x,x,x,x,6,x" "10" "1" "6"
     (by decide) (by decide) (by decide)⟩

/-- C7 counterexample: the claim says a malformed full-state line (fewer than
    8 fields, or a non-numeric field 7) makes the decoder fail with a
    ParseError, but `parseStateParams` is total — on both malformed shapes it
    returns a state (with a null target temperature) instead of failing. -/
theorem C7_claim_counterexample :
    parseStateParams "10,x" =
      { targetTemperature := none, isHeating := false, isPoweredOn := true } ∧
    parseStateParams "10,x,1,x,x,x,x,abc,x" =
      { targetTemperature := none, isHeating := true, isPoweredOn := true } := by
  constructor <;> decide

/-- C7 amended: for every malformed full-state line — fewer than 8 fields, or
    a field 7 that does not parse as an integer — the decoder does not fail;
    it returns a state whose `targetTemperature` is null. -/
theorem C7_malformed_returns_null_target (s : String)
    (h : (splitComma s).length < 8 ∨
      ((splitComma s).get? 7).bind jsParseInt = none) :
    (parseStateParams s).targetTemperature = none := by
  have hb : ((splitComma s).get? 7).bind jsParseInt = none := by
    rcases h with h | h
    · rw [List.get?_eq_none.mpr (by omega)]
      rfl
    · exact h
  simp only [parseStateParams]
  rw [hb]

/-- Witness for the amended C7: the two-field line satisfies the hypothesis
    and decodes with a null target. -/
theorem C7_malformed_returns_null_target_witness :
    ((splitComma "10,x").length < 8 ∨
      ((splitComma "10,x").get? 7).bind jsParseInt = none) ∧
    (parseStateParams "10,x").targetTemperature = none :=
  ⟨Or.inl (by decide),
   C7_malformed_returns_null_target "10,x" (Or.inl (by decide))⟩

/-- C8: `getState false` on a populated cache returns exactly the cached
    snapshot, touching neither the transport nor the cache (and cannot fail);
    with an empty cache or with `forceRefresh = true` it issues exactly one
    `tela_` request and, on success, decodes the response, stores it as the
    new cached value and returns it (on transport failure it fails without
    touching the cache). -/
theorem C8_cache_read {E : Type} (api : Api E) (w : W E) :
    (∀ s, w.cache = some s → getState api false w = (Except.ok s, w)) ∧
    (∀ b : Bool, w.cache = none ∨ b = true →
      (∀ data e', api w.env "tela_" = (Except.ok data, e') →
        getState api b w =
          (Except.ok (parseStateParams data),
           { cache := some (parseStateParams data), env := e',
             trace := w.trace ++ ["tela_"] })) ∧
      (∀ er e', api w.env "tela_" = (Except.error er, e') →
        getState api b w =
          (Except.error RinnaiError.transport,
           { cache := w.cache, env := e', trace := w.trace ++ ["tela_"] }))) := by
  obtain ⟨c, env, tr⟩ := w
  constructor
  · intro s hs
    simp only at hs
    subst hs
    rfl
  · intro b hb
    constructor
    · intro data e' hapi
      rcases hb with hc | hbtrue
      · simp only at hc
        subst hc
        simp only [getState, rinnaiApi]
        rw [hapi]
      · subst hbtrue
        cases c <;> (simp only [getState, rinnaiApi]; rw [hapi])
    · intro er e' hapi
      rcases hb with hc | hbtrue
      · simp only at hc
        subst hc
        simp only [getState, rinnaiApi]
        rw [hapi]
      · subst hbtrue
        cases c <;> (simp only [getState, rinnaiApi]; rw [hapi])

/-- Witness for C8: with a populated cache and no scripted responses,
    `getState false` is the cached snapshot and issues no request. -/
theorem C8_cache_read_witness :
    (W.mk (some ⟨some 38, true, true⟩) ([] : List (Except Unit String)) []).cache =
      some ⟨some 38, true, true⟩ ∧
    getState scriptApi false ⟨some ⟨some 38, true, true⟩, [], []⟩ =
      (Except.ok ⟨some 38, true, true⟩, ⟨some ⟨some 38, true, true⟩, [], []⟩) :=
  ⟨rfl,
   (C8_cache_read scriptApi ⟨some ⟨some 38, true, true⟩, [], []⟩).1
     ⟨some 38, true, true⟩ rfl⟩

/-- C9: `setPowerState` reads the cached (non-forced) power state; when it
    already matches it performs no device request at all; otherwise it issues
    exactly one `/lig` request (single attempt — also on transport failure)
    and caches the decoded response; and, assuming the toggle response
    reports the flipped power state, two consecutive calls with the same
    boolean issue at most one toggle request in total. -/
theorem C9_set_power_idempotent {E : Type} (api : Api E) (w : W E)
    (s : RinnaiState) (turnOn : Bool) (hc : w.cache = some s) :
    (s.isPoweredOn = turnOn →
      setPowerState api turnOn w = (Except.ok SetPowerResult.already, w)) ∧
    (s.isPoweredOn ≠ turnOn →
      (setPowerState api turnOn w).2.trace = w.trace ++ ["/lig"]) ∧
    (∀ data e', s.isPoweredOn ≠ turnOn → api w.env "/lig" = (Except.ok data, e') →
      setPowerState api turnOn w =
        (Except.ok (SetPowerResult.toggledTo (parseStateParams data)),
         { cache := some (parseStateParams data), env := e',
           trace := w.trace ++ ["/lig"] })) ∧
    (∀ data e', s.isPoweredOn ≠ turnOn → api w.env "/lig" = (Except.ok data, e') →
      (parseStateParams data).isPoweredOn = turnOn →
      (setPowerState api turnOn ((setPowerState api turnOn w).2)).2.trace =
        w.trace ++ ["/lig"]) ∧
    (s.isPoweredOn = turnOn →
      (setPowerState api turnOn ((setPowerState api turnOn w).2)).2.trace =
        w.trace) := by
  obtain ⟨c, env, tr⟩ := w
  simp only at hc
  subst hc
  have hget : getState api false ⟨some s, env, tr⟩ =
      (Except.ok s, ⟨some s, env, tr⟩) := rfl
  refine ⟨?_, ?_, ?_, ?_, ?_⟩
  · intro hpow
    simp only [setPowerState, hget, hpow, beq_self_eq_true, if_true]
  · intro hpow
    have hbeq : (s.isPoweredOn == turnOn) = false := by
      simp [hpow]
    simp only [setPowerState, hget, hbeq, Bool.false_eq_true, if_false, rinnaiApi]
    rcases api env "/lig" with ⟨r, e2⟩
    cases r <;> rfl
  · intro data e' hpow hapi
    have hbeq : (s.isPoweredOn == turnOn) = false := by
      simp [hpow]
    simp only [setPowerState, hget, hbeq, Bool.false_eq_true, if_false, rinnaiApi]
    rw [hapi]
  · intro data e' hpow hapi hflip
    have hbeq : (s.isPoweredOn == turnOn) = false := by
      simp [hpow]
    simp only [setPowerState, hget, hbeq, Bool.false_eq_true, if_false, rinnaiApi]
    rw [hapi]
    simp only [getState, hflip, beq_self_eq_true, if_true]
  · intro hpow
    simp only [setPowerState, hget, hpow, beq_self_eq_true, if_true]

/-- Witness for C9: a powered-off cached state, `setPowerState true` twice
    with a toggle response reporting powered-on — exactly one `/lig` request
    in total. -/
theorem C9_set_power_idempotent_witness :
    (setPowerState scriptApi true
      ((setPowerState scriptApi true
        ⟨some ⟨some 38, true, false⟩,
         [Except.ok "10,x,1,x,x,x,x,6,x"], []⟩).2)).2.trace = ["/lig"] :=
  (C9_set_power_idempotent scriptApi
      ⟨some ⟨some 38, true, false⟩, [Except.ok "10,x,1,x,x,x,x,6,x"], []⟩
      ⟨some 38, true, false⟩ true rfl).2.2.2.1
    "10,x,1,x,x,x,x,6,x" [] (by decide) rfl (by decide)

/-- C10: for every rational input (covering all real, non-NaN JS numbers the
    claim quantifies over) `parseTargetTemperatureToRange` returns an element
    of the supported table: the `undefined` outcome is unreachable. -/
theorem C10_mapper_total (t : ℚ) :
    ∃ v ∈ AVAILABLE_TEMPERATURES, parseTargetTemperatureToRange t = some v := by
  by_cases hmem : t ∈ AVAILABLE_TEMPERATURES
  · exact ⟨t, hmem, pttr_of_mem t hmem⟩
  have hne : ∀ c : ℚ, c ∈ AVAILABLE_TEMPERATURES → t ≠ c :=
    fun c hc he => hmem (he ▸ hc)
  rcases lt_or_le t 35 with h | h35
  · exact ⟨35, by decide, pttr_below t h⟩
  rcases lt_or_le t 36 with h36 | h36
  · have h1 : 35 < t := lt_of_le_of_ne h35 (Ne.symm (hne 35 (by decide)))
    refine ⟨35 + ((0 : ℕ) : ℚ), by norm_num [mem_table_iff],
      pttr_between 0 (by norm_num) t ?_ ?_⟩ <;> push_cast <;> linarith
  rcases lt_or_le t 37 with h37 | h37
  · have h1 : 36 < t := lt_of_le_of_ne h36 (Ne.symm (hne 36 (by decide)))
    refine ⟨35 + ((1 : ℕ) : ℚ), by norm_num [mem_table_iff],
      pttr_between 1 (by norm_num) t ?_ ?_⟩ <;> push_cast <;> linarith
  rcases lt_or_le t 38 with h38 | h38
  · have h1 : 37 < t := lt_of_le_of_ne h37 (Ne.symm (hne 37 (by decide)))
    refine ⟨35 + ((2 : ℕ) : ℚ), by norm_num [mem_table_iff],
      pttr_between 2 (by norm_num) t ?_ ?_⟩ <;> push_cast <;> linarith
  rcases lt_or_le t 39 with h39 | h39
  · have h1 : 38 < t := lt_of_le_of_ne h38 (Ne.symm (hne 38 (by decide)))
    refine ⟨35 + ((3 : ℕ) : ℚ), by norm_num [mem_table_iff],
      pttr_between 3 (by norm_num) t ?_ ?_⟩ <;> push_cast <;> linarith
  rcases lt_or_le t 40 with h40 | h40
  · have h1 : 39 < t := lt_of_le_of_ne h39 (Ne.symm (hne 39 (by decide)))
    refine ⟨35 + ((4 : ℕ) : ℚ), by norm_num [mem_table_iff],
      pttr_between 4 (by norm_num) t ?_ ?_⟩ <;> push_cast <;> linarith
  rcases lt_or_le t 41 with h41 | h41
  · have h1 : 40 < t := lt_of_le_of_ne h40 (Ne.symm (hne 40 (by decide)))
    refine ⟨35 + ((5 : ℕ) : ℚ), by norm_num [mem_table_iff],
      pttr_between 5 (by norm_num) t ?_ ?_⟩ <;> push_cast <;> linarith
  rcases lt_or_le t 42 with h42 | h42
  · have h1 : 41 < t := lt_of_le_of_ne h41 (Ne.symm (hne 41 (by decide)))
    refine ⟨35 + ((6 : ℕ) : ℚ), by norm_num [mem_table_iff],
      pttr_between 6 (by norm_num) t ?_ ?_⟩ <;> push_cast <;> linarith
  rcases lt_or_le t 43 with h43 | h43
  · have h1 : 42 < t := lt_of_le_of_ne h42 (Ne.symm (hne 42 (by decide)))
    refine ⟨35 + ((7 : ℕ) : ℚ), by norm_num [mem_table_iff],
      pttr_between 7 (by norm_num) t ?_ ?_⟩ <;> push_cast <;> linarith
  rcases lt_or_le t 44 with h44 | h44
  · have h1 : 43 < t := lt_of_le_of_ne h43 (Ne.symm (hne 43 (by decide)))
    refine ⟨35 + ((8 : ℕ) : ℚ), by norm_num [mem_table_iff],
      pttr_between 8 (by norm_num) t ?_ ?_⟩ <;> push_cast <;> linarith
  rcases lt_or_le t 45 with h45 | h45
  · have h1 : 44 < t := lt_of_le_of_ne h44 (Ne.symm (hne 44 (by decide)))
    refine ⟨35 + ((9 : ℕ) : ℚ), by norm_num [mem_table_iff],
      pttr_between 9 (by norm_num) t ?_ ?_⟩ <;> push_cast <;> linarith
  · have h1 : 45 < t := lt_of_le_of_ne h45 (Ne.symm (hne 45 (by decide)))
    exact ⟨45, by decide, pttr_above t h1⟩

end Rinnai
